import Mathlib

/-!
Verification of the shared virtual-time timer (timer_streamli.py).

The program keeps a Seoul-local configuration (real_base, virt_base, speed,
virt_adjust) in Streamlit session state, maps real time to a displayed virtual
time, and mirrors the configuration in a single row of a remote table.

Embedding conventions:
* Every datetime the program manipulates is timezone-aware in Asia/Seoul, a
  fixed-offset zone (+09:00, no DST in the modern era), so a datetime is
  modelled by its Seoul-local timestamp in integer microseconds (Int).
  Python's calendar arithmetic (replace, %, subtraction, comparison) is exact
  floor arithmetic on that representation.
* A timedelta is its signed length in integer microseconds.
* The float detour `timedelta(seconds=elapsed.total_seconds() * speed)` is
  modelled by the exact integer product `elapsed * speed`: speed is an int and
  the float round trip microseconds -> seconds -> microseconds is exact for
  every span the timer can display (well below 2^52 microseconds).
* `int(td.total_seconds())` truncates toward zero and is modelled by Int.tdiv
  by 10^6.
* An ISO-8601 string produced by isoformat() and consumed by fromisoformat()
  is modelled by its information content: the calendar date as a day number
  (the year/month/day rendering is a bijection with the day number), the time
  of day in microseconds, and the optional UTC offset; tz-naive strings have
  no offset.
* The Supabase client and its failures are modelled by an Option client handle
  and an explicit Except outcome for each query / upsert.
-/

/-- Microseconds per calendar day. -/
def usPerDay : Int := 86400000000

/-- Microseconds per second. -/
def usPerSec : Int := 1000000

/-- REAL_BASE_HMS, line 22: default real-time anchor 20:00:00. -/
def REAL_BASE_HMS : Int × Int × Int := (20, 0, 0)

/-- VIRT_BASE_HMS, line 23: default virtual-time anchor 09:00:00. -/
def VIRT_BASE_HMS : Int × Int × Int := (9, 0, 0)

/-- DEFAULT_SPEED, line 24. -/
def DEFAULT_SPEED : Int := 3

/-- ROW_ID, line 27: the single shared row. -/
def ROW_ID : Int := 1

/-- Asia/Seoul fixed UTC offset, in minutes. -/
def SEOUL_OFFSET_MIN : Int := 540

/-- Python `dt.replace(hour=h, minute=m, second=s, microsecond=0)` on a
Seoul-local datetime: keep the calendar date (the floor multiple of usPerDay)
and set the time of day. -/
def replaceTime (t : Int) (hms : Int × Int × Int) : Int :=
  t - t % usPerDay + (hms.1 * 3600 + hms.2.1 * 60 + hms.2.2) * usPerSec

/-- Python `dt.replace(microsecond=0)`: the microsecond field (always in
[0, 1000000)) is dropped, flooring the instant to a whole second. -/
def dropMicroseconds (t : Int) : Int :=
  t - t % usPerSec

/-- Time-of-day in microseconds of a Seoul-local datetime. -/
def timeOfDay (t : Int) : Int := t % usPerDay

/-- Calendar date of a Seoul-local datetime, as a day number. -/
def dateOf (t : Int) : Int := t / usPerDay

/-- get_default_real_base, lines 80-84: today's 20:00:00.000000, or
yesterday's when `now` is before it. -/
def get_default_real_base (now : Int) : Int :=
  if now < replaceTime now REAL_BASE_HMS then replaceTime now REAL_BASE_HMS - usPerDay
  else replaceTime now REAL_BASE_HMS

/-- get_default_virt_base, lines 86-87: 09:00:00.000000 on real_base's date. -/
def get_default_virt_base (real_base : Int) : Int :=
  replaceTime real_base VIRT_BASE_HMS

/-- The session-state fields the timer logic reads and writes
(lines 154-165). last_loaded_at / last_saved_at cache the remote updated_at
token; the token string datetime.now(SEOUL).isoformat() is modelled by the
timestamp it renders (isoformat is injective). -/
structure SessionState where
  real_base : Int
  virt_base : Int
  real_base_init : Int
  virt_base_init : Int
  virt_adjust : Int
  speed : Int
  last_loaded_at : Option Int
  last_saved_at : Option Int

/-- compute_virtual, lines 89-97: virtual = virt_base + elapsed * speed +
adjustment, with the microsecond field dropped.  The float expression
`timedelta(seconds=elapsed.total_seconds() * speed)` is modelled by the exact
integer product (see the header). -/
def compute_virtual (s : SessionState) (now : Int) : Int :=
  let elapsed := now - s.real_base
  let vn := s.virt_base + elapsed * s.speed + s.virt_adjust
  dropMicroseconds vn

/-- Information content of an ISO-8601 datetime string: calendar date as a day
number, time of day in microseconds, optional UTC offset in minutes (none for
a tz-naive string). -/
structure IsoStr where
  day : Int
  us : Int
  offsetMin : Option Int

/-- to_iso, lines 101-102: dt.astimezone(SEOUL).isoformat().  Every datetime
in the program is already Seoul-local, so astimezone is the identity and the
string carries the local calendar fields with the +09:00 offset. -/
def to_iso (dt : Int) : IsoStr :=
  { day := dt / usPerDay, us := dt % usPerDay, offsetMin := some SEOUL_OFFSET_MIN }

/-- from_iso, lines 104-109: fromisoformat, a naive value defaulting to SEOUL,
then astimezone(SEOUL): local time L carrying offset o denotes the instant
L - o in UTC, i.e. L - o + 540 min on the Seoul clock. -/
def from_iso (s : IsoStr) : Int :=
  s.day * usPerDay + s.us - (s.offsetMin.getD SEOUL_OFFSET_MIN) * 60 * usPerSec
    + SEOUL_OFFSET_MIN * 60 * usPerSec

/-- A row of the timer_state table.  Every column may be NULL / absent: the
bootstrap SQL shown at lines 352-361 creates the row with NULL iso columns.
updated_at is modelled by the timestamp its string renders. -/
structure RemoteRow where
  id : Option Int
  real_base_iso : Option IsoStr
  virt_base_iso : Option IsoStr
  virt_adjust_sec : Option Int
  speed : Option Int
  updated_at : Option Int

/-- The Supabase client handle; only its presence matters to the store logic. -/
abbrev Client := Unit

/-- Outcome of the select in load_remote_state: the raised exception, or
resp.data (which may itself be None, line 116). -/
abbrev QueryResult := Except Unit (Option (List RemoteRow))

/-- load_remote_state, lines 111-119: None without a client, None when the
query raises, otherwise the first row of `resp.data or []` if any. -/
def load_remote_state (supabase : Option Client) (q : QueryResult) :
    Option RemoteRow :=
  match supabase with
  | none => none
  | some _ =>
    match q with
    | Except.error _ => none
    | Except.ok data =>
      match data.getD [] with
      | [] => none
      | r :: _ => some r

/-- The payload dict built by save_remote_state, lines 124-131.
`int(virt_adjust.total_seconds())` truncates toward zero: Int.tdiv by 10^6. -/
def save_payload (s : SessionState) (now : Int) : RemoteRow :=
  { id := some ROW_ID
    real_base_iso := some (to_iso s.real_base)
    virt_base_iso := some (to_iso s.virt_base)
    virt_adjust_sec := some (Int.tdiv s.virt_adjust usPerSec)
    speed := some s.speed
    updated_at := some now }

/-- save_remote_state, lines 121-136: a no-op without a client; on a raised
upsert only a warning is shown and the state is untouched; on success only
last_saved_at is updated, to the payload's updated_at. -/
def save_remote_state (s : SessionState) (supabase : Option Client)
    (w : Except Unit Unit) (now : Int) : SessionState :=
  match supabase with
  | none => s
  | some _ =>
    match w with
    | Except.ok _ => { s with last_saved_at := some now }
    | Except.error _ => s

/-- apply_remote_state, lines 140-150: each base is overwritten only when the
row carries a truthy iso value (a NULL column is skipped); virt_adjust and
speed are always overwritten, with defaults 0 and DEFAULT_SPEED; the
updated_at token is cached in last_loaded_at. -/
def apply_remote_state (s : SessionState) (row : RemoteRow) : SessionState :=
  let s1 :=
    match row.real_base_iso with
    | some iso => { s with real_base := from_iso iso }
    | none => s
  let s2 :=
    match row.virt_base_iso with
    | some iso => { s1 with virt_base := from_iso iso }
    | none => s1
  { s2 with
    virt_adjust := row.virt_adjust_sec.getD 0 * usPerSec
    speed := row.speed.getD DEFAULT_SPEED
    last_loaded_at := row.updated_at }

/-- Session initialization, lines 154-165 (before the remote bootstrap). -/
def initState (now0 : Int) : SessionState :=
  { real_base := get_default_real_base now0
    virt_base := get_default_virt_base (get_default_real_base now0)
    real_base_init := get_default_real_base now0
    virt_base_init := get_default_virt_base (get_default_real_base now0)
    virt_adjust := 0
    speed := DEFAULT_SPEED
    last_loaded_at := none
    last_saved_at := none }

/-- The per-rerun remote pull, lines 180-183: the row is applied only when its
updated_at differs from the cached last_loaded_at. -/
def pull (s : SessionState) (row : Option RemoteRow) : SessionState :=
  match row with
  | none => s
  | some r => if r.updated_at ≠ s.last_loaded_at then apply_remote_state s r else s

/-- The six speed-button multipliers, line 323. -/
def speedChoices : List Int := [1, 2, 3, 4, 6, 9]

/-- A speed button, lines 321-326: sets speed to the chosen multiplier. -/
def pressSpeedButton (s : SessionState) (i : Fin speedChoices.length) :
    SessionState :=
  { s with speed := speedChoices.get i }

/-- The reset-adjustment button, lines 310-313: zeroes virt_adjust. -/
def resetAdjustment (s : SessionState) : SessionState :=
  { s with virt_adjust := 0 }

/-- The set-to-target button, lines 303-309: virt_adjust becomes
target - (virt_base + (nowx - real_base) * speed); here `(nowx - real_base) *
speed` is exact timedelta-times-int arithmetic in the source as well. -/
def setToTarget (s : SessionState) (target nowx : Int) : SessionState :=
  { s with
    virt_adjust := target - (s.virt_base + (nowx - s.real_base) * s.speed) }

/-- The time mapping exactly as section 4.1 of the specification words it:
virt_base + (real_now - real_base) * speed + virt_adjust, truncated to whole
seconds. -/
def virtual_now_spec (s : SessionState) (real_now : Int) : Int :=
  dropMicroseconds (s.virt_base + (real_now - s.real_base) * s.speed + s.virt_adjust)

/-- Convenient constructor for a session state with the given bases,
adjustment and speed and empty sync tokens. -/
def mkState (rb vb adj sp : Int) : SessionState :=
  { real_base := rb
    virt_base := vb
    real_base_init := rb
    virt_base_init := vb
    virt_adjust := adj
    speed := sp
    last_loaded_at := none
    last_saved_at := none }

/-- The row the bootstrap SQL (lines 352-361) creates: NULL iso columns,
virt_adjust_sec 0, speed 3, and a fresh updated_at. -/
def bootstrapRow : RemoteRow :=
  { id := some 1
    real_base_iso := none
    virt_base_iso := none
    virt_adjust_sec := some 0
    speed := some 3
    updated_at := some 1 }

/-- Writing a Seoul-local datetime as an ISO string and parsing it back is the
identity. -/
lemma from_iso_to_iso (t : Int) : from_iso (to_iso t) = t := by
  show t / usPerDay * usPerDay + t % usPerDay
      - ((some SEOUL_OFFSET_MIN).getD SEOUL_OFFSET_MIN) * 60 * usPerSec
      + SEOUL_OFFSET_MIN * 60 * usPerSec = t
  simp only [Option.getD_some]
  unfold usPerDay usPerSec SEOUL_OFFSET_MIN
  omega

/-- Flooring to the whole second is monotone. -/
lemma dropMicroseconds_mono {a b : Int} (h : a ≤ b) :
    dropMicroseconds a ≤ dropMicroseconds b := by
  show a - a % usPerSec ≤ b - b % usPerSec
  unfold usPerSec
  omega

/-- C1: for every configuration and every real timestamp, including timestamps
earlier than real_base (negative elapsed, no clamping), compute_virtual equals
virt_base + (real_now - real_base) * speed + virt_adjust with the result
truncated to whole seconds (microseconds dropped). -/
theorem compute_virtual_matches_spec_formula (s : SessionState) (real_now : Int) :
    compute_virtual s real_now = virtual_now_spec s real_now := rfl

/-- C3: with a positive speed the displayed virtual time is monotone in real
time. -/
theorem compute_virtual_monotone (s : SessionState) (now1 now2 : Int)
    (hsp : 0 < s.speed) (h : now1 ≤ now2) :
    compute_virtual s now1 ≤ compute_virtual s now2 := by
  show dropMicroseconds (s.virt_base + (now1 - s.real_base) * s.speed + s.virt_adjust)
      ≤ dropMicroseconds (s.virt_base + (now2 - s.real_base) * s.speed + s.virt_adjust)
  apply dropMicroseconds_mono
  have hmul : (now1 - s.real_base) * s.speed ≤ (now2 - s.real_base) * s.speed :=
    mul_le_mul_of_nonneg_right (by omega) (le_of_lt hsp)
  linarith

/-- Witness for C3 at a concrete configuration and pair of instants. -/
theorem compute_virtual_monotone_witness :
    compute_virtual (mkState 0 0 0 3) 0 ≤ compute_virtual (mkState 0 0 0 3) 1000000 :=
  compute_virtual_monotone (mkState 0 0 0 3) 0 1000000 (by decide) (by decide)

/-- C2 counterexample: a state whose virt_adjust is half a second (exactly what
the set-to-target button produces when pressed at a real instant with nonzero
microseconds).  Saving stores int(total_seconds()) = 0 whole seconds, so
re-applying the saved row zeroes the adjustment: the round trip is not the
identity on virt_adjust. -/
theorem save_then_load_loses_fractional_adjust :
    (apply_remote_state (mkState 0 0 500000 3)
        (save_payload (mkState 0 0 500000 3) 0)).virt_adjust
      ≠ (mkState 0 0 500000 3).virt_adjust := by decide

/-- C2 (amended): saving and re-applying the saved row reproduces real_base,
virt_base and speed exactly; virt_adjust is stored truncated toward zero to
whole seconds, so it is reproduced exactly when it is a whole number of
seconds. -/
theorem save_then_load_round_trip (s target : SessionState) (now : Int)
    (h : s.virt_adjust % usPerSec = 0) :
    (apply_remote_state target (save_payload s now)).real_base = s.real_base ∧
    (apply_remote_state target (save_payload s now)).virt_base = s.virt_base ∧
    (apply_remote_state target (save_payload s now)).speed = s.speed ∧
    (apply_remote_state target (save_payload s now)).virt_adjust = s.virt_adjust := by
  refine ⟨?_, ?_, ?_, ?_⟩ <;>
    simp only [apply_remote_state, save_payload, Option.getD_some, from_iso_to_iso]
  rw [Int.tdiv_eq_ediv_of_dvd (Int.dvd_of_emod_eq_zero h)]
  exact Int.ediv_mul_cancel (Int.dvd_of_emod_eq_zero h)

/-- Witness for C2 at a whole-second adjustment. -/
theorem save_then_load_round_trip_witness :
    (apply_remote_state (mkState 5 7 2000000 4)
        (save_payload (mkState 5 7 2000000 4) 9)).virt_adjust
      = (mkState 5 7 2000000 4).virt_adjust :=
  (save_then_load_round_trip (mkState 5 7 2000000 4) (mkState 5 7 2000000 4) 9
    (by decide)).2.2.2

/-- C4 counterexample: from a state satisfying speed >= 1, applying a remote
row that carries speed = 0 (the column is unconstrained) adopts it verbatim,
so apply_remote_state does not preserve the invariant for every row. -/
theorem apply_remote_state_breaks_speed_invariant :
    1 ≤ (mkState 0 0 0 3).speed ∧
    ¬ 1 ≤ (apply_remote_state (mkState 0 0 0 3)
        { id := some 1, real_base_iso := none, virt_base_iso := none,
          virt_adjust_sec := some 0, speed := some 0, updated_at := some 1 }).speed := by
  decide

/-- C4 (amended): speed >= 1 holds after initialization and after every speed
button; apply_remote_state yields speed >= 1 exactly when the row's speed
field, defaulted to DEFAULT_SPEED when absent, is at least 1 (as is the case
for every row written by save_remote_state from a state with speed >= 1). -/
theorem speed_invariant_amended (now0 : Int) (s : SessionState)
    (i : Fin speedChoices.length) (row : RemoteRow)
    (hrow : 1 ≤ row.speed.getD DEFAULT_SPEED) :
    1 ≤ (initState now0).speed ∧
    1 ≤ (pressSpeedButton s i).speed ∧
    1 ≤ (apply_remote_state s row).speed := by
  refine ⟨by simp [initState, DEFAULT_SPEED], ?_, ?_⟩
  · have hall : ∀ j : Fin speedChoices.length, 1 ≤ speedChoices.get j := by decide
    exact hall i
  · exact hrow

/-- Witness for C4 with the first speed button and the bootstrap row. -/
theorem speed_invariant_amended_witness :
    1 ≤ (apply_remote_state (mkState 0 0 0 3) bootstrapRow).speed :=
  (speed_invariant_amended 0 (mkState 0 0 0 3) ⟨0, by decide⟩ bootstrapRow
    (by decide)).2.2

/-- C5 counterexample: pulling the bootstrap row (whose updated_at differs from
the local cache but whose iso columns are NULL) does cache the new updated_at,
yet leaves real_base at whatever local value each client had: two clients with
different local real_base still disagree after pulling the same row, so not
every configuration field is overwritten with the remote row's values. -/
theorem pull_keeps_local_base_when_iso_null :
    (pull (mkState 0 0 0 3) (some bootstrapRow)).last_loaded_at
        = bootstrapRow.updated_at ∧
    (pull (mkState 0 0 0 3) (some bootstrapRow)).real_base = 0 ∧
    (pull (mkState usPerDay 0 0 3) (some bootstrapRow)).real_base = usPerDay := by
  refine ⟨by decide, by decide, by decide⟩

/-- C5 (amended): when the row's updated_at differs from the cached token the
row is applied: virt_adjust, speed and last_loaded_at are overwritten (with
defaults 0 and DEFAULT_SPEED for missing fields), while each base is
overwritten only when the row carries a non-null iso value and is kept
otherwise; when updated_at equals the cached token the state is untouched. -/
theorem pull_amended (s : SessionState) (row : RemoteRow) :
    (row.updated_at = s.last_loaded_at → pull s (some row) = s) ∧
    (row.updated_at ≠ s.last_loaded_at →
      pull s (some row) = apply_remote_state s row ∧
      (apply_remote_state s row).last_loaded_at = row.updated_at ∧
      (apply_remote_state s row).virt_adjust = row.virt_adjust_sec.getD 0 * usPerSec ∧
      (apply_remote_state s row).speed = row.speed.getD DEFAULT_SPEED ∧
      (apply_remote_state s row).real_base =
        (match row.real_base_iso with
         | some iso => from_iso iso
         | none => s.real_base) ∧
      (apply_remote_state s row).virt_base =
        (match row.virt_base_iso with
         | some iso => from_iso iso
         | none => s.virt_base)) := by
  constructor
  · intro h
    simp [pull, h]
  · intro h
    refine ⟨by simp [pull, h], rfl, rfl, rfl, ?_, ?_⟩ <;>
      rcases row with ⟨rid, rbi, vbi, vas, rsp, rua⟩ <;>
      cases rbi <;> cases vbi <;> rfl

/-- Witness for C5: pulling the bootstrap row overwrites speed with the row's
value. -/
theorem pull_amended_witness :
    (apply_remote_state (mkState 0 0 0 3) bootstrapRow).speed
      = bootstrapRow.speed.getD DEFAULT_SPEED :=
  ((pull_amended (mkState 0 0 0 3) bootstrapRow).2 (by decide)).2.2.2.1

/-- C6: every store operation degrades to local-only operation: load returns
None when the client is missing or the query raised, and save (a total
function: every exception is caught) leaves the entire session state, its
configuration fields and last_saved_at included, unchanged when the client is
missing or the upsert raised. -/
theorem store_errors_degrade_to_local (q : QueryResult) (c : Option Client)
    (s : SessionState) (now : Int) :
    load_remote_state none q = none ∧
    load_remote_state c (Except.error ()) = none ∧
    save_remote_state s none (Except.ok ()) now = s ∧
    save_remote_state s none (Except.error ()) now = s ∧
    save_remote_state s c (Except.error ()) now = s := by
  refine ⟨rfl, ?_, rfl, rfl, ?_⟩ <;> cases c <;> rfl

/-- C7: after the reset-adjustment button zeroes virt_adjust, the displayed
virtual time is the unadjusted formula virt_base + (now - real_base) * speed
truncated to whole seconds. -/
theorem reset_adjustment_restores_unadjusted (s : SessionState) (now : Int) :
    compute_virtual (resetAdjustment s) now =
      dropMicroseconds (s.virt_base + (now - s.real_base) * s.speed) := by
  show dropMicroseconds (s.virt_base + (now - s.real_base) * s.speed + 0)
      = dropMicroseconds (s.virt_base + (now - s.real_base) * s.speed)
  rw [add_zero]

/-- C8: on any calendar day, with real_base at 20:00 and virt_base at 09:00 of
that day, speed 3 and no adjustment, the virtual time at real 20:10 is 09:30. -/
theorem example_real_2010_maps_to_virtual_0930 (t : Int) :
    compute_virtual
        (mkState (replaceTime t (20, 0, 0)) (replaceTime t (9, 0, 0)) 0 3)
        (replaceTime t (20, 10, 0))
      = replaceTime t (9, 30, 0) := by
  show dropMicroseconds (replaceTime t (9, 0, 0)
      + (replaceTime t (20, 10, 0) - replaceTime t (20, 0, 0)) * 3 + 0)
      = replaceTime t (9, 30, 0)
  unfold dropMicroseconds replaceTime usPerDay usPerSec
  norm_num
  omega

/-- C9: the default real base is the most recent 20:00:00.000000 at or before
now (today's 20:00, or yesterday's when now is earlier), and the default
virtual base derived from it is 09:00:00.000000 on the same calendar date. -/
theorem default_bases_correct (now : Int) :
    timeOfDay (get_default_real_base now) = 20 * 3600 * usPerSec ∧
    get_default_real_base now ≤ now ∧
    now - get_default_real_base now < usPerDay ∧
    dateOf (get_default_virt_base (get_default_real_base now))
      = dateOf (get_default_real_base now) ∧
    timeOfDay (get_default_virt_base (get_default_real_base now))
      = 9 * 3600 * usPerSec := by
  unfold timeOfDay dateOf get_default_real_base get_default_virt_base replaceTime
    REAL_BASE_HMS VIRT_BASE_HMS usPerDay usPerSec
  norm_num
  all_goals split <;> omega

/-- C10: the set-to-target button makes virt_adjust exactly
target - (virt_base + (nowx - real_base) * speed), so the virtual time
recomputed at that same instant is the target truncated to whole seconds. -/
theorem set_to_target_hits_target (s : SessionState) (target nowx : Int) :
    (setToTarget s target nowx).virt_adjust
        = target - (s.virt_base + (nowx - s.real_base) * s.speed) ∧
    compute_virtual (setToTarget s target nowx) nowx = dropMicroseconds target := by
  refine ⟨rfl, ?_⟩
  show dropMicroseconds (s.virt_base + (nowx - s.real_base) * s.speed
      + (target - (s.virt_base + (nowx - s.real_base) * s.speed)))
      = dropMicroseconds target
  congr 1
  ring
